import Mathlib

/-!
# Result codes and their diagnostic strings (`src/libs/wrapper.h`)

A shallow embedding of the `FMOD_RESULT` enumeration and of the helper
`FMOD_ErrorString` that maps a result code to its diagnostic message.

* `FMOD_RESULT` is a C `enum`; its values are `int`s.  An enumerator without
  an initialiser has the value of the previous enumerator plus one, and the
  first one has value `0`.  Each enumerator is embedded as an `Int` constant
  defined exactly by that rule.
* `FMOD_ErrorString` is a `switch` over the result code whose every `case`
  returns a string literal, with a `default` label.  The case labels are
  pairwise distinct constants, so the `switch` is the chain of equality tests
  taken in source order; the final `else` is the `default` label.
-/

set_option maxRecDepth 8192

/-! ## `typedef enum FMOD_RESULT` -/

def FMOD_OK : Int := 0
def FMOD_ERR_BADCOMMAND : Int := FMOD_OK + 1
def FMOD_ERR_CHANNEL_ALLOC : Int := FMOD_ERR_BADCOMMAND + 1
def FMOD_ERR_CHANNEL_STOLEN : Int := FMOD_ERR_CHANNEL_ALLOC + 1
def FMOD_ERR_DMA : Int := FMOD_ERR_CHANNEL_STOLEN + 1
def FMOD_ERR_DSP_CONNECTION : Int := FMOD_ERR_DMA + 1
def FMOD_ERR_DSP_DONTPROCESS : Int := FMOD_ERR_DSP_CONNECTION + 1
def FMOD_ERR_DSP_FORMAT : Int := FMOD_ERR_DSP_DONTPROCESS + 1
def FMOD_ERR_DSP_INUSE : Int := FMOD_ERR_DSP_FORMAT + 1
def FMOD_ERR_DSP_NOTFOUND : Int := FMOD_ERR_DSP_INUSE + 1
def FMOD_ERR_DSP_RESERVED : Int := FMOD_ERR_DSP_NOTFOUND + 1
def FMOD_ERR_DSP_SILENCE : Int := FMOD_ERR_DSP_RESERVED + 1
def FMOD_ERR_DSP_TYPE : Int := FMOD_ERR_DSP_SILENCE + 1
def FMOD_ERR_FILE_BAD : Int := FMOD_ERR_DSP_TYPE + 1
def FMOD_ERR_FILE_COULDNOTSEEK : Int := FMOD_ERR_FILE_BAD + 1
def FMOD_ERR_FILE_DISKEJECTED : Int := FMOD_ERR_FILE_COULDNOTSEEK + 1
def FMOD_ERR_FILE_EOF : Int := FMOD_ERR_FILE_DISKEJECTED + 1
def FMOD_ERR_FILE_ENDOFDATA : Int := FMOD_ERR_FILE_EOF + 1
def FMOD_ERR_FILE_NOTFOUND : Int := FMOD_ERR_FILE_ENDOFDATA + 1
def FMOD_ERR_FORMAT : Int := FMOD_ERR_FILE_NOTFOUND + 1
def FMOD_ERR_HEADER_MISMATCH : Int := FMOD_ERR_FORMAT + 1
def FMOD_ERR_HTTP : Int := FMOD_ERR_HEADER_MISMATCH + 1
def FMOD_ERR_HTTP_ACCESS : Int := FMOD_ERR_HTTP + 1
def FMOD_ERR_HTTP_PROXY_AUTH : Int := FMOD_ERR_HTTP_ACCESS + 1
def FMOD_ERR_HTTP_SERVER_ERROR : Int := FMOD_ERR_HTTP_PROXY_AUTH + 1
def FMOD_ERR_HTTP_TIMEOUT : Int := FMOD_ERR_HTTP_SERVER_ERROR + 1
def FMOD_ERR_INITIALIZATION : Int := FMOD_ERR_HTTP_TIMEOUT + 1
def FMOD_ERR_INITIALIZED : Int := FMOD_ERR_INITIALIZATION + 1
def FMOD_ERR_INTERNAL : Int := FMOD_ERR_INITIALIZED + 1
def FMOD_ERR_INVALID_FLOAT : Int := FMOD_ERR_INTERNAL + 1
def FMOD_ERR_INVALID_HANDLE : Int := FMOD_ERR_INVALID_FLOAT + 1
def FMOD_ERR_INVALID_PARAM : Int := FMOD_ERR_INVALID_HANDLE + 1
def FMOD_ERR_INVALID_POSITION : Int := FMOD_ERR_INVALID_PARAM + 1
def FMOD_ERR_INVALID_SPEAKER : Int := FMOD_ERR_INVALID_POSITION + 1
def FMOD_ERR_INVALID_SYNCPOINT : Int := FMOD_ERR_INVALID_SPEAKER + 1
def FMOD_ERR_INVALID_THREAD : Int := FMOD_ERR_INVALID_SYNCPOINT + 1
def FMOD_ERR_INVALID_VECTOR : Int := FMOD_ERR_INVALID_THREAD + 1
def FMOD_ERR_MAXAUDIBLE : Int := FMOD_ERR_INVALID_VECTOR + 1
def FMOD_ERR_MEMORY : Int := FMOD_ERR_MAXAUDIBLE + 1
def FMOD_ERR_MEMORY_CANTPOINT : Int := FMOD_ERR_MEMORY + 1
def FMOD_ERR_NEEDS3D : Int := FMOD_ERR_MEMORY_CANTPOINT + 1
def FMOD_ERR_NEEDSHARDWARE : Int := FMOD_ERR_NEEDS3D + 1
def FMOD_ERR_NET_CONNECT : Int := FMOD_ERR_NEEDSHARDWARE + 1
def FMOD_ERR_NET_SOCKET_ERROR : Int := FMOD_ERR_NET_CONNECT + 1
def FMOD_ERR_NET_URL : Int := FMOD_ERR_NET_SOCKET_ERROR + 1
def FMOD_ERR_NET_WOULD_BLOCK : Int := FMOD_ERR_NET_URL + 1
def FMOD_ERR_NOTREADY : Int := FMOD_ERR_NET_WOULD_BLOCK + 1
def FMOD_ERR_OUTPUT_ALLOCATED : Int := FMOD_ERR_NOTREADY + 1
def FMOD_ERR_OUTPUT_CREATEBUFFER : Int := FMOD_ERR_OUTPUT_ALLOCATED + 1
def FMOD_ERR_OUTPUT_DRIVERCALL : Int := FMOD_ERR_OUTPUT_CREATEBUFFER + 1
def FMOD_ERR_OUTPUT_FORMAT : Int := FMOD_ERR_OUTPUT_DRIVERCALL + 1
def FMOD_ERR_OUTPUT_INIT : Int := FMOD_ERR_OUTPUT_FORMAT + 1
def FMOD_ERR_OUTPUT_NODRIVERS : Int := FMOD_ERR_OUTPUT_INIT + 1
def FMOD_ERR_PLUGIN : Int := FMOD_ERR_OUTPUT_NODRIVERS + 1
def FMOD_ERR_PLUGIN_MISSING : Int := FMOD_ERR_PLUGIN + 1
def FMOD_ERR_PLUGIN_RESOURCE : Int := FMOD_ERR_PLUGIN_MISSING + 1
def FMOD_ERR_PLUGIN_VERSION : Int := FMOD_ERR_PLUGIN_RESOURCE + 1
def FMOD_ERR_RECORD : Int := FMOD_ERR_PLUGIN_VERSION + 1
def FMOD_ERR_REVERB_CHANNELGROUP : Int := FMOD_ERR_RECORD + 1
def FMOD_ERR_REVERB_INSTANCE : Int := FMOD_ERR_REVERB_CHANNELGROUP + 1
def FMOD_ERR_SUBSOUNDS : Int := FMOD_ERR_REVERB_INSTANCE + 1
def FMOD_ERR_SUBSOUND_ALLOCATED : Int := FMOD_ERR_SUBSOUNDS + 1
def FMOD_ERR_SUBSOUND_CANTMOVE : Int := FMOD_ERR_SUBSOUND_ALLOCATED + 1
def FMOD_ERR_TAGNOTFOUND : Int := FMOD_ERR_SUBSOUND_CANTMOVE + 1
def FMOD_ERR_TOOMANYCHANNELS : Int := FMOD_ERR_TAGNOTFOUND + 1
def FMOD_ERR_TRUNCATED : Int := FMOD_ERR_TOOMANYCHANNELS + 1
def FMOD_ERR_UNIMPLEMENTED : Int := FMOD_ERR_TRUNCATED + 1
def FMOD_ERR_UNINITIALIZED : Int := FMOD_ERR_UNIMPLEMENTED + 1
def FMOD_ERR_UNSUPPORTED : Int := FMOD_ERR_UNINITIALIZED + 1
def FMOD_ERR_VERSION : Int := FMOD_ERR_UNSUPPORTED + 1
def FMOD_ERR_EVENT_ALREADY_LOADED : Int := FMOD_ERR_VERSION + 1
def FMOD_ERR_EVENT_LIVEUPDATE_BUSY : Int := FMOD_ERR_EVENT_ALREADY_LOADED + 1
def FMOD_ERR_EVENT_LIVEUPDATE_MISMATCH : Int := FMOD_ERR_EVENT_LIVEUPDATE_BUSY + 1
def FMOD_ERR_EVENT_LIVEUPDATE_TIMEOUT : Int := FMOD_ERR_EVENT_LIVEUPDATE_MISMATCH + 1
def FMOD_ERR_EVENT_NOTFOUND : Int := FMOD_ERR_EVENT_LIVEUPDATE_TIMEOUT + 1
def FMOD_ERR_STUDIO_UNINITIALIZED : Int := FMOD_ERR_EVENT_NOTFOUND + 1
def FMOD_ERR_STUDIO_NOT_LOADED : Int := FMOD_ERR_STUDIO_UNINITIALIZED + 1
def FMOD_ERR_INVALID_STRING : Int := FMOD_ERR_STUDIO_NOT_LOADED + 1
def FMOD_ERR_ALREADY_LOCKED : Int := FMOD_ERR_INVALID_STRING + 1
def FMOD_ERR_NOT_LOCKED : Int := FMOD_ERR_ALREADY_LOCKED + 1
def FMOD_ERR_RECORD_DISCONNECTED : Int := FMOD_ERR_NOT_LOCKED + 1
def FMOD_ERR_TOOMANYSAMPLES : Int := FMOD_ERR_RECORD_DISCONNECTED + 1
def FMOD_RESULT_FORCEINT : Int := 65536

/-- The enumerators of `FMOD_RESULT` in declaration order, the trailing
`FMOD_RESULT_FORCEINT` included. -/
def FMOD_RESULT_enumerators : List Int :=
  [FMOD_OK,
   FMOD_ERR_BADCOMMAND,
   FMOD_ERR_CHANNEL_ALLOC,
   FMOD_ERR_CHANNEL_STOLEN,
   FMOD_ERR_DMA,
   FMOD_ERR_DSP_CONNECTION,
   FMOD_ERR_DSP_DONTPROCESS,
   FMOD_ERR_DSP_FORMAT,
   FMOD_ERR_DSP_INUSE,
   FMOD_ERR_DSP_NOTFOUND,
   FMOD_ERR_DSP_RESERVED,
   FMOD_ERR_DSP_SILENCE,
   FMOD_ERR_DSP_TYPE,
   FMOD_ERR_FILE_BAD,
   FMOD_ERR_FILE_COULDNOTSEEK,
   FMOD_ERR_FILE_DISKEJECTED,
   FMOD_ERR_FILE_EOF,
   FMOD_ERR_FILE_ENDOFDATA,
   FMOD_ERR_FILE_NOTFOUND,
   FMOD_ERR_FORMAT,
   FMOD_ERR_HEADER_MISMATCH,
   FMOD_ERR_HTTP,
   FMOD_ERR_HTTP_ACCESS,
   FMOD_ERR_HTTP_PROXY_AUTH,
   FMOD_ERR_HTTP_SERVER_ERROR,
   FMOD_ERR_HTTP_TIMEOUT,
   FMOD_ERR_INITIALIZATION,
   FMOD_ERR_INITIALIZED,
   FMOD_ERR_INTERNAL,
   FMOD_ERR_INVALID_FLOAT,
   FMOD_ERR_INVALID_HANDLE,
   FMOD_ERR_INVALID_PARAM,
   FMOD_ERR_INVALID_POSITION,
   FMOD_ERR_INVALID_SPEAKER,
   FMOD_ERR_INVALID_SYNCPOINT,
   FMOD_ERR_INVALID_THREAD,
   FMOD_ERR_INVALID_VECTOR,
   FMOD_ERR_MAXAUDIBLE,
   FMOD_ERR_MEMORY,
   FMOD_ERR_MEMORY_CANTPOINT,
   FMOD_ERR_NEEDS3D,
   FMOD_ERR_NEEDSHARDWARE,
   FMOD_ERR_NET_CONNECT,
   FMOD_ERR_NET_SOCKET_ERROR,
   FMOD_ERR_NET_URL,
   FMOD_ERR_NET_WOULD_BLOCK,
   FMOD_ERR_NOTREADY,
   FMOD_ERR_OUTPUT_ALLOCATED,
   FMOD_ERR_OUTPUT_CREATEBUFFER,
   FMOD_ERR_OUTPUT_DRIVERCALL,
   FMOD_ERR_OUTPUT_FORMAT,
   FMOD_ERR_OUTPUT_INIT,
   FMOD_ERR_OUTPUT_NODRIVERS,
   FMOD_ERR_PLUGIN,
   FMOD_ERR_PLUGIN_MISSING,
   FMOD_ERR_PLUGIN_RESOURCE,
   FMOD_ERR_PLUGIN_VERSION,
   FMOD_ERR_RECORD,
   FMOD_ERR_REVERB_CHANNELGROUP,
   FMOD_ERR_REVERB_INSTANCE,
   FMOD_ERR_SUBSOUNDS,
   FMOD_ERR_SUBSOUND_ALLOCATED,
   FMOD_ERR_SUBSOUND_CANTMOVE,
   FMOD_ERR_TAGNOTFOUND,
   FMOD_ERR_TOOMANYCHANNELS,
   FMOD_ERR_TRUNCATED,
   FMOD_ERR_UNIMPLEMENTED,
   FMOD_ERR_UNINITIALIZED,
   FMOD_ERR_UNSUPPORTED,
   FMOD_ERR_VERSION,
   FMOD_ERR_EVENT_ALREADY_LOADED,
   FMOD_ERR_EVENT_LIVEUPDATE_BUSY,
   FMOD_ERR_EVENT_LIVEUPDATE_MISMATCH,
   FMOD_ERR_EVENT_LIVEUPDATE_TIMEOUT,
   FMOD_ERR_EVENT_NOTFOUND,
   FMOD_ERR_STUDIO_UNINITIALIZED,
   FMOD_ERR_STUDIO_NOT_LOADED,
   FMOD_ERR_INVALID_STRING,
   FMOD_ERR_ALREADY_LOCKED,
   FMOD_ERR_NOT_LOCKED,
   FMOD_ERR_RECORD_DISCONNECTED,
   FMOD_ERR_TOOMANYSAMPLES,
   FMOD_RESULT_FORCEINT]

/-! ## `FMOD_ErrorString` -/

/-- The `switch (errcode)` of `FMOD_ErrorString`: one `case` per named result
code, each returning its string literal, and the `default` label last. -/
def FMOD_ErrorString (errcode : Int) : String :=
  if errcode = FMOD_OK then "No errors."
  else if errcode = FMOD_ERR_BADCOMMAND then "Tried to call a function on a data type that does not allow this type of functionality (ie calling Sound::lock on a streaming sound)."
  else if errcode = FMOD_ERR_CHANNEL_ALLOC then "Error trying to allocate a channel."
  else if errcode = FMOD_ERR_CHANNEL_STOLEN then "The specified channel has been reused to play another sound."
  else if errcode = FMOD_ERR_DMA then "DMA Failure.  See debug output for more information."
  else if errcode = FMOD_ERR_DSP_CONNECTION then "DSP connection error.  Connection possibly caused a cyclic dependency or connected dsps with incompatible buffer counts."
  else if errcode = FMOD_ERR_DSP_DONTPROCESS then "DSP return code from a DSP process query callback.  Tells mixer not to call the process callback and therefore not consume CPU.  Use this to optimize the DSP graph."
  else if errcode = FMOD_ERR_DSP_FORMAT then "DSP Format error.  A DSP unit may have attempted to connect to this network with the wrong format, or a matrix may have been set with the wrong size if the target unit has a specified channel map."
  else if errcode = FMOD_ERR_DSP_INUSE then "DSP is already in the mixer's DSP network. It must be removed before being reinserted or released."
  else if errcode = FMOD_ERR_DSP_NOTFOUND then "DSP connection error.  Couldn't find the DSP unit specified."
  else if errcode = FMOD_ERR_DSP_RESERVED then "DSP operation error.  Cannot perform operation on this DSP as it is reserved by the system."
  else if errcode = FMOD_ERR_DSP_SILENCE then "DSP return code from a DSP process query callback.  Tells mixer silence would be produced from read, so go idle and not consume CPU.  Use this to optimize the DSP graph."
  else if errcode = FMOD_ERR_DSP_TYPE then "DSP operation cannot be performed on a DSP of this type."
  else if errcode = FMOD_ERR_FILE_BAD then "Error loading file."
  else if errcode = FMOD_ERR_FILE_COULDNOTSEEK then "Couldn't perform seek operation.  This is a limitation of the medium (ie netstreams) or the file format."
  else if errcode = FMOD_ERR_FILE_DISKEJECTED then "Media was ejected while reading."
  else if errcode = FMOD_ERR_FILE_EOF then "End of file unexpectedly reached while trying to read essential data (truncated?)."
  else if errcode = FMOD_ERR_FILE_ENDOFDATA then "End of current chunk reached while trying to read data."
  else if errcode = FMOD_ERR_FILE_NOTFOUND then "File not found."
  else if errcode = FMOD_ERR_FORMAT then "Unsupported file or audio format."
  else if errcode = FMOD_ERR_HEADER_MISMATCH then "There is a version mismatch between the FMOD header and either the FMOD Studio library or the FMOD Low Level library."
  else if errcode = FMOD_ERR_HTTP then "A HTTP error occurred. This is a catch-all for HTTP errors not listed elsewhere."
  else if errcode = FMOD_ERR_HTTP_ACCESS then "The specified resource requires authentication or is forbidden."
  else if errcode = FMOD_ERR_HTTP_PROXY_AUTH then "Proxy authentication is required to access the specified resource."
  else if errcode = FMOD_ERR_HTTP_SERVER_ERROR then "A HTTP server error occurred."
  else if errcode = FMOD_ERR_HTTP_TIMEOUT then "The HTTP request timed out."
  else if errcode = FMOD_ERR_INITIALIZATION then "FMOD was not initialized correctly to support this function."
  else if errcode = FMOD_ERR_INITIALIZED then "Cannot call this command after System::init."
  else if errcode = FMOD_ERR_INTERNAL then "An error occured in the FMOD system. Use the logging version of FMOD for more information."
  else if errcode = FMOD_ERR_INVALID_FLOAT then "Value passed in was a NaN, Inf or denormalized float."
  else if errcode = FMOD_ERR_INVALID_HANDLE then "An invalid object handle was used."
  else if errcode = FMOD_ERR_INVALID_PARAM then "An invalid parameter was passed to this function."
  else if errcode = FMOD_ERR_INVALID_POSITION then "An invalid seek position was passed to this function."
  else if errcode = FMOD_ERR_INVALID_SPEAKER then "An invalid speaker was passed to this function based on the current speaker mode."
  else if errcode = FMOD_ERR_INVALID_SYNCPOINT then "The syncpoint did not come from this sound handle."
  else if errcode = FMOD_ERR_INVALID_THREAD then "Tried to call a function on a thread that is not supported."
  else if errcode = FMOD_ERR_INVALID_VECTOR then "The vectors passed in are not unit length, or perpendicular."
  else if errcode = FMOD_ERR_MAXAUDIBLE then "Reached maximum audible playback count for this sound's soundgroup."
  else if errcode = FMOD_ERR_MEMORY then "Not enough memory or resources."
  else if errcode = FMOD_ERR_MEMORY_CANTPOINT then "Can't use FMOD_OPENMEMORY_POINT on non PCM source data, or non mp3/xma/adpcm data if FMOD_CREATECOMPRESSEDSAMPLE was used."
  else if errcode = FMOD_ERR_NEEDS3D then "Tried to call a command on a 2d sound when the command was meant for 3d sound."
  else if errcode = FMOD_ERR_NEEDSHARDWARE then "Tried to use a feature that requires hardware support."
  else if errcode = FMOD_ERR_NET_CONNECT then "Couldn't connect to the specified host."
  else if errcode = FMOD_ERR_NET_SOCKET_ERROR then "A socket error occurred.  This is a catch-all for socket-related errors not listed elsewhere."
  else if errcode = FMOD_ERR_NET_URL then "The specified URL couldn't be resolved."
  else if errcode = FMOD_ERR_NET_WOULD_BLOCK then "Operation on a non-blocking socket could not complete immediately."
  else if errcode = FMOD_ERR_NOTREADY then "Operation could not be performed because specified sound/DSP connection is not ready."
  else if errcode = FMOD_ERR_OUTPUT_ALLOCATED then "Error initializing output device, but more specifically, the output device is already in use and cannot be reused."
  else if errcode = FMOD_ERR_OUTPUT_CREATEBUFFER then "Error creating hardware sound buffer."
  else if errcode = FMOD_ERR_OUTPUT_DRIVERCALL then "A call to a standard soundcard driver failed, which could possibly mean a bug in the driver or resources were missing or exhausted."
  else if errcode = FMOD_ERR_OUTPUT_FORMAT then "Soundcard does not support the specified format."
  else if errcode = FMOD_ERR_OUTPUT_INIT then "Error initializing output device."
  else if errcode = FMOD_ERR_OUTPUT_NODRIVERS then "The output device has no drivers installed.  If pre-init, FMOD_OUTPUT_NOSOUND is selected as the output mode.  If post-init, the function just fails."
  else if errcode = FMOD_ERR_PLUGIN then "An unspecified error has been returned from a plugin."
  else if errcode = FMOD_ERR_PLUGIN_MISSING then "A requested output, dsp unit type or codec was not available."
  else if errcode = FMOD_ERR_PLUGIN_RESOURCE then "A resource that the plugin requires cannot be allocated or found. (ie the DLS file for MIDI playback)"
  else if errcode = FMOD_ERR_PLUGIN_VERSION then "A plugin was built with an unsupported SDK version."
  else if errcode = FMOD_ERR_RECORD then "An error occurred trying to initialize the recording device."
  else if errcode = FMOD_ERR_REVERB_CHANNELGROUP then "Reverb properties cannot be set on this channel because a parent channelgroup owns the reverb connection."
  else if errcode = FMOD_ERR_REVERB_INSTANCE then "Specified instance in FMOD_REVERB_PROPERTIES couldn't be set. Most likely because it is an invalid instance number or the reverb doesn't exist."
  else if errcode = FMOD_ERR_SUBSOUNDS then "The error occurred because the sound referenced contains subsounds when it shouldn't have, or it doesn't contain subsounds when it should have.  The operation may also not be able to be performed on a parent sound."
  else if errcode = FMOD_ERR_SUBSOUND_ALLOCATED then "This subsound is already being used by another sound, you cannot have more than one parent to a sound.  Null out the other parent's entry first."
  else if errcode = FMOD_ERR_SUBSOUND_CANTMOVE then "Shared subsounds cannot be replaced or moved from their parent stream, such as when the parent stream is an FSB file."
  else if errcode = FMOD_ERR_TAGNOTFOUND then "The specified tag could not be found or there are no tags."
  else if errcode = FMOD_ERR_TOOMANYCHANNELS then "The sound created exceeds the allowable input channel count.  This can be increased using the 'maxinputchannels' parameter in System::setSoftwareFormat."
  else if errcode = FMOD_ERR_TRUNCATED then "The retrieved string is too long to fit in the supplied buffer and has been truncated."
  else if errcode = FMOD_ERR_UNIMPLEMENTED then "Something in FMOD hasn't been implemented when it should be. Contact support."
  else if errcode = FMOD_ERR_UNINITIALIZED then "This command failed because System::init or System::setDriver was not called."
  else if errcode = FMOD_ERR_UNSUPPORTED then "A command issued was not supported by this object.  Possibly a plugin without certain callbacks specified."
  else if errcode = FMOD_ERR_VERSION then "The version number of this file format is not supported."
  else if errcode = FMOD_ERR_EVENT_ALREADY_LOADED then "The specified bank has already been loaded."
  else if errcode = FMOD_ERR_EVENT_LIVEUPDATE_BUSY then "The live update connection failed due to the game already being connected."
  else if errcode = FMOD_ERR_EVENT_LIVEUPDATE_MISMATCH then "The live update connection failed due to the game data being out of sync with the tool."
  else if errcode = FMOD_ERR_EVENT_LIVEUPDATE_TIMEOUT then "The live update connection timed out."
  else if errcode = FMOD_ERR_EVENT_NOTFOUND then "The requested event, parameter, bus or vca could not be found."
  else if errcode = FMOD_ERR_STUDIO_UNINITIALIZED then "The Studio::System object is not yet initialized."
  else if errcode = FMOD_ERR_STUDIO_NOT_LOADED then "The specified resource is not loaded, so it can't be unloaded."
  else if errcode = FMOD_ERR_INVALID_STRING then "An invalid string was passed to this function."
  else if errcode = FMOD_ERR_ALREADY_LOCKED then "The specified resource is already locked."
  else if errcode = FMOD_ERR_NOT_LOCKED then "The specified resource is not locked, so it can't be unlocked."
  else if errcode = FMOD_ERR_RECORD_DISCONNECTED then "The specified recording driver has been disconnected."
  else if errcode = FMOD_ERR_TOOMANYSAMPLES then "The length provided exceeds the allowable limit."
  else "Unknown error."

/-! ## `FMOD_MODE` (`unsigned int`) -/

def FMOD_DEFAULT : Nat := 0x00000000
def FMOD_LOOP_OFF : Nat := 0x00000001
def FMOD_LOOP_NORMAL : Nat := 0x00000002
def FMOD_LOOP_BIDI : Nat := 0x00000004
def FMOD_2D : Nat := 0x00000008
def FMOD_3D : Nat := 0x00000010
def FMOD_CREATESTREAM : Nat := 0x00000080
def FMOD_CREATESAMPLE : Nat := 0x00000100
def FMOD_CREATECOMPRESSEDSAMPLE : Nat := 0x00000200
def FMOD_OPENUSER : Nat := 0x00000400
def FMOD_OPENMEMORY : Nat := 0x00000800
def FMOD_OPENMEMORY_POINT : Nat := 0x10000000
def FMOD_OPENRAW : Nat := 0x00001000
def FMOD_OPENONLY : Nat := 0x00002000
def FMOD_ACCURATETIME : Nat := 0x00004000
def FMOD_MPEGSEARCH : Nat := 0x00008000
def FMOD_NONBLOCKING : Nat := 0x00010000
def FMOD_UNIQUE : Nat := 0x00020000
def FMOD_3D_HEADRELATIVE : Nat := 0x00040000
def FMOD_3D_WORLDRELATIVE : Nat := 0x00080000
def FMOD_3D_INVERSEROLLOFF : Nat := 0x00100000
def FMOD_3D_LINEARROLLOFF : Nat := 0x00200000
def FMOD_3D_LINEARSQUAREROLLOFF : Nat := 0x00400000
def FMOD_3D_INVERSETAPEREDROLLOFF : Nat := 0x00800000
def FMOD_3D_CUSTOMROLLOFF : Nat := 0x04000000
def FMOD_3D_IGNOREGEOMETRY : Nat := 0x40000000
def FMOD_IGNORETAGS : Nat := 0x02000000
def FMOD_LOWMEM : Nat := 0x08000000
def FMOD_VIRTUAL_PLAYFROMSTART : Nat := 0x80000000

/-- The non-zero `FMOD_MODE` constants, in the order of their `#define`s. -/
def FMOD_MODE_flags : List Nat :=
  [FMOD_LOOP_OFF,
   FMOD_LOOP_NORMAL,
   FMOD_LOOP_BIDI,
   FMOD_2D,
   FMOD_3D,
   FMOD_CREATESTREAM,
   FMOD_CREATESAMPLE,
   FMOD_CREATECOMPRESSEDSAMPLE,
   FMOD_OPENUSER,
   FMOD_OPENMEMORY,
   FMOD_OPENMEMORY_POINT,
   FMOD_OPENRAW,
   FMOD_OPENONLY,
   FMOD_ACCURATETIME,
   FMOD_MPEGSEARCH,
   FMOD_NONBLOCKING,
   FMOD_UNIQUE,
   FMOD_3D_HEADRELATIVE,
   FMOD_3D_WORLDRELATIVE,
   FMOD_3D_INVERSEROLLOFF,
   FMOD_3D_LINEARROLLOFF,
   FMOD_3D_LINEARSQUAREROLLOFF,
   FMOD_3D_INVERSETAPEREDROLLOFF,
   FMOD_3D_CUSTOMROLLOFF,
   FMOD_3D_IGNOREGEOMETRY,
   FMOD_IGNORETAGS,
   FMOD_LOWMEM,
   FMOD_VIRTUAL_PLAYFROMSTART]

/-! ## `FMOD_CHANNELMASK` (`unsigned int`) -/

def FMOD_CHANNELMASK_FRONT_LEFT : Nat := 0x00000001
def FMOD_CHANNELMASK_FRONT_RIGHT : Nat := 0x00000002
def FMOD_CHANNELMASK_FRONT_CENTER : Nat := 0x00000004
def FMOD_CHANNELMASK_LOW_FREQUENCY : Nat := 0x00000008
def FMOD_CHANNELMASK_SURROUND_LEFT : Nat := 0x00000010
def FMOD_CHANNELMASK_SURROUND_RIGHT : Nat := 0x00000020
def FMOD_CHANNELMASK_BACK_LEFT : Nat := 0x00000040
def FMOD_CHANNELMASK_BACK_RIGHT : Nat := 0x00000080
def FMOD_CHANNELMASK_BACK_CENTER : Nat := 0x00000100
def FMOD_CHANNELMASK_MONO : Nat := (FMOD_CHANNELMASK_FRONT_LEFT)
def FMOD_CHANNELMASK_STEREO : Nat := (FMOD_CHANNELMASK_FRONT_LEFT ||| FMOD_CHANNELMASK_FRONT_RIGHT)
def FMOD_CHANNELMASK_LRC : Nat := (FMOD_CHANNELMASK_FRONT_LEFT ||| FMOD_CHANNELMASK_FRONT_RIGHT ||| FMOD_CHANNELMASK_FRONT_CENTER)
def FMOD_CHANNELMASK_QUAD : Nat := (FMOD_CHANNELMASK_FRONT_LEFT ||| FMOD_CHANNELMASK_FRONT_RIGHT ||| FMOD_CHANNELMASK_SURROUND_LEFT ||| FMOD_CHANNELMASK_SURROUND_RIGHT)
def FMOD_CHANNELMASK_SURROUND : Nat := (FMOD_CHANNELMASK_FRONT_LEFT ||| FMOD_CHANNELMASK_FRONT_RIGHT ||| FMOD_CHANNELMASK_FRONT_CENTER ||| FMOD_CHANNELMASK_SURROUND_LEFT ||| FMOD_CHANNELMASK_SURROUND_RIGHT)
def FMOD_CHANNELMASK_5POINT1 : Nat := (FMOD_CHANNELMASK_FRONT_LEFT ||| FMOD_CHANNELMASK_FRONT_RIGHT ||| FMOD_CHANNELMASK_FRONT_CENTER ||| FMOD_CHANNELMASK_LOW_FREQUENCY ||| FMOD_CHANNELMASK_SURROUND_LEFT ||| FMOD_CHANNELMASK_SURROUND_RIGHT)
def FMOD_CHANNELMASK_5POINT1_REARS : Nat := (FMOD_CHANNELMASK_FRONT_LEFT ||| FMOD_CHANNELMASK_FRONT_RIGHT ||| FMOD_CHANNELMASK_FRONT_CENTER ||| FMOD_CHANNELMASK_LOW_FREQUENCY ||| FMOD_CHANNELMASK_BACK_LEFT ||| FMOD_CHANNELMASK_BACK_RIGHT)
def FMOD_CHANNELMASK_7POINT0 : Nat := (FMOD_CHANNELMASK_FRONT_LEFT ||| FMOD_CHANNELMASK_FRONT_RIGHT ||| FMOD_CHANNELMASK_FRONT_CENTER ||| FMOD_CHANNELMASK_SURROUND_LEFT ||| FMOD_CHANNELMASK_SURROUND_RIGHT ||| FMOD_CHANNELMASK_BACK_LEFT ||| FMOD_CHANNELMASK_BACK_RIGHT)
def FMOD_CHANNELMASK_7POINT1 : Nat := (FMOD_CHANNELMASK_FRONT_LEFT ||| FMOD_CHANNELMASK_FRONT_RIGHT ||| FMOD_CHANNELMASK_FRONT_CENTER ||| FMOD_CHANNELMASK_LOW_FREQUENCY ||| FMOD_CHANNELMASK_SURROUND_LEFT ||| FMOD_CHANNELMASK_SURROUND_RIGHT ||| FMOD_CHANNELMASK_BACK_LEFT ||| FMOD_CHANNELMASK_BACK_RIGHT)

/-! ## `FMOD_THREAD_PRIORITY` (`int`) -/

def FMOD_THREAD_PRIORITY_PLATFORM_MIN : Int := (-32 * 1024)
def FMOD_THREAD_PRIORITY_PLATFORM_MAX : Int := (32 * 1024)
def FMOD_THREAD_PRIORITY_DEFAULT : Int := (FMOD_THREAD_PRIORITY_PLATFORM_MIN - 1)
def FMOD_THREAD_PRIORITY_LOW : Int := (FMOD_THREAD_PRIORITY_PLATFORM_MIN - 2)
def FMOD_THREAD_PRIORITY_MEDIUM : Int := (FMOD_THREAD_PRIORITY_PLATFORM_MIN - 3)
def FMOD_THREAD_PRIORITY_HIGH : Int := (FMOD_THREAD_PRIORITY_PLATFORM_MIN - 4)
def FMOD_THREAD_PRIORITY_VERY_HIGH : Int := (FMOD_THREAD_PRIORITY_PLATFORM_MIN - 5)
def FMOD_THREAD_PRIORITY_EXTREME : Int := (FMOD_THREAD_PRIORITY_PLATFORM_MIN - 6)
def FMOD_THREAD_PRIORITY_CRITICAL : Int := (FMOD_THREAD_PRIORITY_PLATFORM_MIN - 7)

/-! ## `FMOD_THREAD_AFFINITY` (`long long`)

All the values below are non-negative and smaller than `2 ^ 63`, so the
signed 64-bit type holds them exactly and they are embedded as `Nat`.  The
sixteen `FMOD_THREAD_AFFINITY_CORE_*` macros are shifts of the `int` literal
`1` by at most 15, which a 32-bit `int` holds exactly. -/

def FMOD_THREAD_AFFINITY_CORE_ALL : Nat := 0
def FMOD_THREAD_AFFINITY_CORE_0 : Nat := (1 <<< 0)
def FMOD_THREAD_AFFINITY_CORE_1 : Nat := (1 <<< 1)
def FMOD_THREAD_AFFINITY_CORE_2 : Nat := (1 <<< 2)
def FMOD_THREAD_AFFINITY_CORE_3 : Nat := (1 <<< 3)
def FMOD_THREAD_AFFINITY_CORE_4 : Nat := (1 <<< 4)
def FMOD_THREAD_AFFINITY_CORE_5 : Nat := (1 <<< 5)
def FMOD_THREAD_AFFINITY_CORE_6 : Nat := (1 <<< 6)
def FMOD_THREAD_AFFINITY_CORE_7 : Nat := (1 <<< 7)
def FMOD_THREAD_AFFINITY_CORE_8 : Nat := (1 <<< 8)
def FMOD_THREAD_AFFINITY_CORE_9 : Nat := (1 <<< 9)
def FMOD_THREAD_AFFINITY_CORE_10 : Nat := (1 <<< 10)
def FMOD_THREAD_AFFINITY_CORE_11 : Nat := (1 <<< 11)
def FMOD_THREAD_AFFINITY_CORE_12 : Nat := (1 <<< 12)
def FMOD_THREAD_AFFINITY_CORE_13 : Nat := (1 <<< 13)
def FMOD_THREAD_AFFINITY_CORE_14 : Nat := (1 <<< 14)
def FMOD_THREAD_AFFINITY_CORE_15 : Nat := (1 <<< 15)

/-- The single-core macros that the header defines, in the order of their
`#define`s. -/
def FMOD_THREAD_AFFINITY_cores : List Nat :=
  [FMOD_THREAD_AFFINITY_CORE_0, FMOD_THREAD_AFFINITY_CORE_1,
   FMOD_THREAD_AFFINITY_CORE_2, FMOD_THREAD_AFFINITY_CORE_3,
   FMOD_THREAD_AFFINITY_CORE_4, FMOD_THREAD_AFFINITY_CORE_5,
   FMOD_THREAD_AFFINITY_CORE_6, FMOD_THREAD_AFFINITY_CORE_7,
   FMOD_THREAD_AFFINITY_CORE_8, FMOD_THREAD_AFFINITY_CORE_9,
   FMOD_THREAD_AFFINITY_CORE_10, FMOD_THREAD_AFFINITY_CORE_11,
   FMOD_THREAD_AFFINITY_CORE_12, FMOD_THREAD_AFFINITY_CORE_13,
   FMOD_THREAD_AFFINITY_CORE_14, FMOD_THREAD_AFFINITY_CORE_15]

/-- The C expression `(1 << k)` by which the header writes a single-core bit,
for any shift count `k`.  The literal `1` is an `int` of 32 bits, so the
expression has the value `2 ^ k` as long as that fits the `int`, that is for
`k ≤ 30`; from `k = 31` on the shift overflows the `int` or reaches its width
and the expression has no defined value (`none`). -/
def int_one_shl (k : Nat) : Option Nat :=
  if k < 31 then some (1 <<< k) else none

/-- The core mask `(1 << k₁) | (1 << k₂) | ...` for the cores of the list
`ks`, each bit written as the header writes it; it has a value when every
shift has one, and for no core at all it is `FMOD_THREAD_AFFINITY_CORE_ALL`. -/
def coreMask : List Nat → Option Nat
  | [] => some FMOD_THREAD_AFFINITY_CORE_ALL
  | k :: ks =>
    match int_one_shl k, coreMask ks with
    | some b, some m => some (b ||| m)
    | _, _ => none

/-- The platform-agnostic priorities, in the order of their `#define`s. -/
def FMOD_THREAD_PRIORITY_agnostic : List Int :=
  [FMOD_THREAD_PRIORITY_DEFAULT, FMOD_THREAD_PRIORITY_LOW,
   FMOD_THREAD_PRIORITY_MEDIUM, FMOD_THREAD_PRIORITY_HIGH,
   FMOD_THREAD_PRIORITY_VERY_HIGH, FMOD_THREAD_PRIORITY_EXTREME,
   FMOD_THREAD_PRIORITY_CRITICAL]

/-- The number of bits set in a 32-bit word. -/
def popcount32 (m : Nat) : Nat :=
  ((List.range 32).filter (fun i => m.testBit i)).length

/-- The nine single-speaker bits OR-ed together. -/
def FMOD_CHANNELMASK_speakers : Nat :=
  FMOD_CHANNELMASK_FRONT_LEFT ||| FMOD_CHANNELMASK_FRONT_RIGHT |||
  FMOD_CHANNELMASK_FRONT_CENTER ||| FMOD_CHANNELMASK_LOW_FREQUENCY |||
  FMOD_CHANNELMASK_SURROUND_LEFT ||| FMOD_CHANNELMASK_SURROUND_RIGHT |||
  FMOD_CHANNELMASK_BACK_LEFT ||| FMOD_CHANNELMASK_BACK_RIGHT |||
  FMOD_CHANNELMASK_BACK_CENTER

/-- Inclusion of bit sets: every bit of `a` is a bit of `b`. -/
def bitsSubset (a b : Nat) : Prop := a &&& b = a

instance (a b : Nat) : Decidable (bitsSubset a b) :=
  inferInstanceAs (Decidable (a &&& b = a))

/-! ## DSP parameter descriptors and the `FMOD_DSP_INIT_PARAMDESC_*` macros

A `char` is embedded as its byte value, a `float` as its 32-bit pattern (the
macros only copy floats), and a pointer as `Option` of the array it points
to, `none` being the null pointer.  An array argument of a macro, of which
the macro takes `sizeof`, is the list of its elements. -/

def FMOD_DSP_PARAMETER_TYPE_FLOAT : Int := 0
def FMOD_DSP_PARAMETER_TYPE_INT : Int := FMOD_DSP_PARAMETER_TYPE_FLOAT + 1
def FMOD_DSP_PARAMETER_TYPE_BOOL : Int := FMOD_DSP_PARAMETER_TYPE_INT + 1
def FMOD_DSP_PARAMETER_TYPE_DATA : Int := FMOD_DSP_PARAMETER_TYPE_BOOL + 1
def FMOD_DSP_PARAMETER_TYPE_MAX : Int := FMOD_DSP_PARAMETER_TYPE_DATA + 1
def FMOD_DSP_PARAMETER_TYPE_FORCEINT : Int := 65536

def FMOD_DSP_PARAMETER_FLOAT_MAPPING_TYPE_LINEAR : Int := 0
def FMOD_DSP_PARAMETER_FLOAT_MAPPING_TYPE_AUTO : Int :=
  FMOD_DSP_PARAMETER_FLOAT_MAPPING_TYPE_LINEAR + 1
def FMOD_DSP_PARAMETER_FLOAT_MAPPING_TYPE_PIECEWISE_LINEAR : Int :=
  FMOD_DSP_PARAMETER_FLOAT_MAPPING_TYPE_AUTO + 1
def FMOD_DSP_PARAMETER_FLOAT_MAPPING_TYPE_FORCEINT : Int := 65536

structure FMOD_DSP_PARAMETER_FLOAT_MAPPING_PIECEWISE_LINEAR where
  numpoints : Int
  pointparamvalues : Option (List Nat)
  pointpositions : Option (List Nat)
  deriving DecidableEq

structure FMOD_DSP_PARAMETER_FLOAT_MAPPING where
  type : Int
  piecewiselinearmapping : FMOD_DSP_PARAMETER_FLOAT_MAPPING_PIECEWISE_LINEAR
  deriving DecidableEq

structure FMOD_DSP_PARAMETER_DESC_FLOAT where
  min : Nat
  max : Nat
  defaultval : Nat
  mapping : FMOD_DSP_PARAMETER_FLOAT_MAPPING
  deriving DecidableEq

structure FMOD_DSP_PARAMETER_DESC_INT where
  min : Int
  max : Int
  defaultval : Int
  goestoinf : Int
  valuenames : Option (List (List Nat))
  deriving DecidableEq

structure FMOD_DSP_PARAMETER_DESC_BOOL where
  defaultval : Int
  valuenames : Option (List (List Nat))
  deriving DecidableEq

structure FMOD_DSP_PARAMETER_DESC_DATA where
  datatype : Int
  deriving DecidableEq

/-- The anonymous `union` of `FMOD_DSP_PARAMETER_DESC`: the member written
last, or `zeroed` when its bytes are all zero and no member was written. -/
inductive FMOD_DSP_PARAMETER_DESC_union where
  | zeroed
  | floatdesc (d : FMOD_DSP_PARAMETER_DESC_FLOAT)
  | intdesc (d : FMOD_DSP_PARAMETER_DESC_INT)
  | booldesc (d : FMOD_DSP_PARAMETER_DESC_BOOL)
  | datadesc (d : FMOD_DSP_PARAMETER_DESC_DATA)
  deriving DecidableEq

structure FMOD_DSP_PARAMETER_DESC where
  type : Int
  name : List Nat
  label : List Nat
  description : Option (List Nat)
  u : FMOD_DSP_PARAMETER_DESC_union
  deriving DecidableEq

/-- The member `floatdesc` read from the union; from all-zero bytes every
field reads as zero (reading it after another member was written is not
modelled and reads as zero too). -/
def FMOD_DSP_PARAMETER_DESC_union.getFloatdesc :
    FMOD_DSP_PARAMETER_DESC_union → FMOD_DSP_PARAMETER_DESC_FLOAT
  | .floatdesc d => d
  | _ => ⟨0, 0, 0, ⟨0, ⟨0, none, none⟩⟩⟩

/-- The member `intdesc` read from the union. -/
def FMOD_DSP_PARAMETER_DESC_union.getIntdesc :
    FMOD_DSP_PARAMETER_DESC_union → FMOD_DSP_PARAMETER_DESC_INT
  | .intdesc d => d
  | _ => ⟨0, 0, 0, 0, none⟩

/-- The member `booldesc` read from the union. -/
def FMOD_DSP_PARAMETER_DESC_union.getBooldesc :
    FMOD_DSP_PARAMETER_DESC_union → FMOD_DSP_PARAMETER_DESC_BOOL
  | .booldesc d => d
  | _ => ⟨0, none⟩

/-- The member `datadesc` read from the union. -/
def FMOD_DSP_PARAMETER_DESC_union.getDatadesc :
    FMOD_DSP_PARAMETER_DESC_union → FMOD_DSP_PARAMETER_DESC_DATA
  | .datadesc d => d
  | _ => ⟨0⟩

/-- The call `memset(&(_paramstruct), 0, sizeof(_paramstruct))` of
`<string.h>`: every byte of the descriptor becomes zero, whatever it held. -/
def memset_zero (_paramstruct : FMOD_DSP_PARAMETER_DESC) : FMOD_DSP_PARAMETER_DESC :=
  ⟨0, List.replicate 16 0, List.replicate 16 0, none, .zeroed⟩

/-- The call `strncpy(dest, src, n)` of `<string.h>` on the bytes of `dest`:
it copies the characters of `src` up to its terminating NUL (here also the
end of the list), at most `n` of them, and when `src` is shorter than `n` it
writes NUL bytes until `n` bytes in all are written; the bytes of `dest` from
index `n` on are left as they were.  No byte is written past `dest`. -/
def strncpy : List Nat → List Nat → Nat → List Nat
  | dest, _, 0 => dest
  | [], _, _ + 1 => []
  | _ :: dest, [], n + 1 => 0 :: strncpy dest [] n
  | _ :: dest, c :: src, n + 1 =>
    if c = 0 then 0 :: strncpy dest [] n else c :: strncpy dest src n

/-- The characters of the C string stored at `src`: the bytes before its
first NUL. -/
def C_string (src : List Nat) : List Nat :=
  src.takeWhile (fun c => c != 0)

def FMOD_DSP_INIT_PARAMDESC_FLOAT (_paramstruct : FMOD_DSP_PARAMETER_DESC)
    (_name _label : List Nat) (_description : Option (List Nat))
    (_min _max _defaultval : Nat) : FMOD_DSP_PARAMETER_DESC :=
  let p := memset_zero _paramstruct
  let p := { p with type := FMOD_DSP_PARAMETER_TYPE_FLOAT }
  let p := { p with name := strncpy p.name _name 15 }
  let p := { p with label := strncpy p.label _label 15 }
  let p := { p with description := _description }
  let p := { p with u := .floatdesc { p.u.getFloatdesc with min := _min } }
  let p := { p with u := .floatdesc { p.u.getFloatdesc with max := _max } }
  let p := { p with u := .floatdesc { p.u.getFloatdesc with defaultval := _defaultval } }
  let p := { p with u := .floatdesc { p.u.getFloatdesc with
    mapping := { p.u.getFloatdesc.mapping with
      type := FMOD_DSP_PARAMETER_FLOAT_MAPPING_TYPE_AUTO } } }
  p

/-- The macro `FMOD_DSP_INIT_PARAMDESC_FLOAT_WITH_MAPPING`; the `;` that
follows its parameter list in the header starts the expansion with an empty
statement. -/
def FMOD_DSP_INIT_PARAMDESC_FLOAT_WITH_MAPPING (_paramstruct : FMOD_DSP_PARAMETER_DESC)
    (_name _label : List Nat) (_description : Option (List Nat))
    (_defaultval : Nat) (_values _positions : List Nat) : FMOD_DSP_PARAMETER_DESC :=
  let p := memset_zero _paramstruct
  let p := { p with type := FMOD_DSP_PARAMETER_TYPE_FLOAT }
  let p := { p with name := strncpy p.name _name 15 }
  let p := { p with label := strncpy p.label _label 15 }
  let p := { p with description := _description }
  let p := { p with u := .floatdesc { p.u.getFloatdesc with min := _values.getD 0 0 } }
  let p := { p with u := .floatdesc { p.u.getFloatdesc with
    max := _values.getD (_values.length - 1) 0 } }
  let p := { p with u := .floatdesc { p.u.getFloatdesc with defaultval := _defaultval } }
  let p := { p with u := .floatdesc { p.u.getFloatdesc with
    mapping := { p.u.getFloatdesc.mapping with
      type := FMOD_DSP_PARAMETER_FLOAT_MAPPING_TYPE_PIECEWISE_LINEAR } } }
  let p := { p with u := .floatdesc { p.u.getFloatdesc with
    mapping := { p.u.getFloatdesc.mapping with
      piecewiselinearmapping := { p.u.getFloatdesc.mapping.piecewiselinearmapping with
        numpoints := Int.ofNat _values.length } } } }
  let p := { p with u := .floatdesc { p.u.getFloatdesc with
    mapping := { p.u.getFloatdesc.mapping with
      piecewiselinearmapping := { p.u.getFloatdesc.mapping.piecewiselinearmapping with
        pointparamvalues := some _values } } } }
  let p := { p with u := .floatdesc { p.u.getFloatdesc with
    mapping := { p.u.getFloatdesc.mapping with
      piecewiselinearmapping := { p.u.getFloatdesc.mapping.piecewiselinearmapping with
        pointpositions := some _positions } } } }
  p

def FMOD_DSP_INIT_PARAMDESC_INT (_paramstruct : FMOD_DSP_PARAMETER_DESC)
    (_name _label : List Nat) (_description : Option (List Nat))
    (_min _max _defaultval _goestoinf : Int) (_valuenames : Option (List (List Nat))) :
    FMOD_DSP_PARAMETER_DESC :=
  let p := memset_zero _paramstruct
  let p := { p with type := FMOD_DSP_PARAMETER_TYPE_INT }
  let p := { p with name := strncpy p.name _name 15 }
  let p := { p with label := strncpy p.label _label 15 }
  let p := { p with description := _description }
  let p := { p with u := .intdesc { p.u.getIntdesc with min := _min } }
  let p := { p with u := .intdesc { p.u.getIntdesc with max := _max } }
  let p := { p with u := .intdesc { p.u.getIntdesc with defaultval := _defaultval } }
  let p := { p with u := .intdesc { p.u.getIntdesc with goestoinf := _goestoinf } }
  let p := { p with u := .intdesc { p.u.getIntdesc with valuenames := _valuenames } }
  p

def FMOD_DSP_INIT_PARAMDESC_INT_ENUMERATED (_paramstruct : FMOD_DSP_PARAMETER_DESC)
    (_name _label : List Nat) (_description : Option (List Nat))
    (_defaultval : Int) (_valuenames : List (List Nat)) : FMOD_DSP_PARAMETER_DESC :=
  let p := memset_zero _paramstruct
  let p := { p with type := FMOD_DSP_PARAMETER_TYPE_INT }
  let p := { p with name := strncpy p.name _name 15 }
  let p := { p with label := strncpy p.label _label 15 }
  let p := { p with description := _description }
  let p := { p with u := .intdesc { p.u.getIntdesc with min := 0 } }
  let p := { p with u := .intdesc { p.u.getIntdesc with
    max := Int.ofNat _valuenames.length - 1 } }
  let p := { p with u := .intdesc { p.u.getIntdesc with defaultval := _defaultval } }
  let p := { p with u := .intdesc { p.u.getIntdesc with goestoinf := 0 } }
  let p := { p with u := .intdesc { p.u.getIntdesc with valuenames := some _valuenames } }
  p

def FMOD_DSP_INIT_PARAMDESC_BOOL (_paramstruct : FMOD_DSP_PARAMETER_DESC)
    (_name _label : List Nat) (_description : Option (List Nat))
    (_defaultval : Int) (_valuenames : Option (List (List Nat))) :
    FMOD_DSP_PARAMETER_DESC :=
  let p := memset_zero _paramstruct
  let p := { p with type := FMOD_DSP_PARAMETER_TYPE_BOOL }
  let p := { p with name := strncpy p.name _name 15 }
  let p := { p with label := strncpy p.label _label 15 }
  let p := { p with description := _description }
  let p := { p with u := .booldesc { p.u.getBooldesc with defaultval := _defaultval } }
  let p := { p with u := .booldesc { p.u.getBooldesc with valuenames := _valuenames } }
  p

def FMOD_DSP_INIT_PARAMDESC_DATA (_paramstruct : FMOD_DSP_PARAMETER_DESC)
    (_name _label : List Nat) (_description : Option (List Nat))
    (_datatype : Int) : FMOD_DSP_PARAMETER_DESC :=
  let p := memset_zero _paramstruct
  let p := { p with type := FMOD_DSP_PARAMETER_TYPE_DATA }
  let p := { p with name := strncpy p.name _name 15 }
  let p := { p with label := strncpy p.label _label 15 }
  let p := { p with description := _description }
  let p := { p with u := .datadesc { p.u.getDatadesc with datatype := _datatype } }
  p

/-- The 16-byte field `field` holds the first `min 15 length` characters of
the C string stored at `src`, followed only by zero bytes. -/
def holdsTruncated (field src : List Nat) : Prop :=
  field = (C_string src).take (min 15 (C_string src).length) ++
    List.replicate (16 - min 15 (C_string src).length) 0

/-- What the claim says of a descriptor `p` initialised from the strings at
`_name` and `_label`: both 16-byte fields hold the truncated string followed
only by zero bytes, and the last byte of each is NUL. -/
def nameLabelInitialised (p : FMOD_DSP_PARAMETER_DESC) (_name _label : List Nat) : Prop :=
  holdsTruncated p.name _name ∧ holdsTruncated p.label _label ∧
    p.name.length = 16 ∧ p.label.length = 16 ∧
    p.name[15]? = some 0 ∧ p.label[15]? = some 0 ∧
    (∀ c ∈ p.name.take (min 15 (C_string _name).length), c ≠ 0) ∧
    (∀ c ∈ p.label.take (min 15 (C_string _label).length), c ≠ 0)

/-! ## Auxiliary facts -/

/-- Every enumerator of `FMOD_RESULT` has a value in `0..81`, or is the
trailing `FMOD_RESULT_FORCEINT`. -/
theorem FMOD_RESULT_enumerators_range :
    ∀ e ∈ FMOD_RESULT_enumerators, (0 ≤ e ∧ e ≤ 81) ∨ e = FMOD_RESULT_FORCEINT := by
  decide

/-- Outside `0..81` no `case` label matches and the `default` label is taken. -/
theorem FMOD_ErrorString_default (n : Int) (h : n < 0 ∨ 81 < n) :
    FMOD_ErrorString n = "Unknown error." := by
  have key : ∀ c : Int, 0 ≤ c ∧ c ≤ 81 → n ≠ c := by
    rintro c ⟨hc0, hc1⟩ hnc
    omega
  unfold FMOD_ErrorString
  iterate 82 refine (if_neg (key _ (by decide))).trans ?_
  rfl

/-- Inside `0..81` the message is neither empty nor the `default` one. -/
theorem FMOD_ErrorString_case (n : Int) (h0 : 0 ≤ n) (h1 : n ≤ 81) :
    FMOD_ErrorString n ≠ "" ∧ FMOD_ErrorString n ≠ "Unknown error." := by
  interval_cases n <;> decide

/-! ## The result-code translator -/

/-- C1: for every defined result code, from `FMOD_OK` (0) to
`FMOD_ERR_TOOMANYSAMPLES` (81), `FMOD_ErrorString` returns a non-empty
string. -/
theorem FMOD_ErrorString_defined_nonempty (n : Int)
    (h0 : FMOD_OK ≤ n) (h1 : n ≤ FMOD_ERR_TOOMANYSAMPLES) :
    (FMOD_OK = 0 ∧ FMOD_ERR_TOOMANYSAMPLES = 81) ∧
      FMOD_ErrorString n ≠ "" ∧ 0 < (FMOD_ErrorString n).length := by
  have e0 : FMOD_OK = 0 := by decide
  have e1 : FMOD_ERR_TOOMANYSAMPLES = 81 := by decide
  rw [e0] at h0
  rw [e1] at h1
  refine ⟨⟨e0, e1⟩, (FMOD_ErrorString_case n h0 h1).1, ?_⟩
  interval_cases n <;> decide

/-- The instance of C1 at `FMOD_ERR_MEMORY` (38). -/
theorem FMOD_ErrorString_defined_nonempty_witness :
    FMOD_OK ≤ FMOD_ERR_MEMORY ∧ FMOD_ERR_MEMORY ≤ FMOD_ERR_TOOMANYSAMPLES ∧
      ((FMOD_OK = 0 ∧ FMOD_ERR_TOOMANYSAMPLES = 81) ∧
        FMOD_ErrorString FMOD_ERR_MEMORY ≠ "" ∧
        0 < (FMOD_ErrorString FMOD_ERR_MEMORY).length) :=
  ⟨by decide, by decide,
    FMOD_ErrorString_defined_nonempty FMOD_ERR_MEMORY (by decide) (by decide)⟩

/-- C2: for every integer outside the defined result codes (`n < 0` or
`n > 81`), `FMOD_ErrorString` returns exactly the fallback string
`"Unknown error."`. -/
theorem FMOD_ErrorString_outside_fallback (n : Int) (h : n < 0 ∨ n > 81) :
    FMOD_ErrorString n = "Unknown error." :=
  FMOD_ErrorString_default n h

/-- The instance of C2 at the sentinel `FMOD_RESULT_FORCEINT` = 65536. -/
theorem FMOD_ErrorString_outside_fallback_witness :
    FMOD_RESULT_FORCEINT = 65536 ∧
      (FMOD_RESULT_FORCEINT < 0 ∨ FMOD_RESULT_FORCEINT > 81) ∧
      FMOD_ErrorString FMOD_RESULT_FORCEINT = "Unknown error." :=
  ⟨rfl, by decide,
    FMOD_ErrorString_outside_fallback FMOD_RESULT_FORCEINT (by decide)⟩

/-- C3, as stated, fails: `FMOD_RESULT_FORCEINT` is an enumerator declared in
`FMOD_RESULT`, the `switch` has no `case` for it, and the string returned for
it is the fallback. -/
theorem FMOD_ErrorString_FORCEINT_no_case :
    FMOD_RESULT_FORCEINT ∈ FMOD_RESULT_enumerators ∧
      FMOD_ErrorString FMOD_RESULT_FORCEINT = "Unknown error." ∧
      ¬ (∀ e ∈ FMOD_RESULT_enumerators, FMOD_ErrorString e ≠ "Unknown error.") := by
  have hm : FMOD_RESULT_FORCEINT ∈ FMOD_RESULT_enumerators := by decide
  have hs : FMOD_ErrorString FMOD_RESULT_FORCEINT = "Unknown error." := by decide
  exact ⟨hm, hs, fun hall => hall _ hm hs⟩

/-- C3 (amended): for every enumerator declared in `FMOD_RESULT` other than
the sentinel `FMOD_RESULT_FORCEINT`, the string `FMOD_ErrorString` returns is
not the fallback `"Unknown error."`. -/
theorem FMOD_ErrorString_covers_named (e : Int)
    (he : e ∈ FMOD_RESULT_enumerators) (hs : e ≠ FMOD_RESULT_FORCEINT) :
    FMOD_ErrorString e ≠ "Unknown error." := by
  rcases FMOD_RESULT_enumerators_range e he with ⟨h0, h1⟩ | hf
  · exact (FMOD_ErrorString_case e h0 h1).2
  · exact absurd hf hs

/-- The instance of C3 (amended) at the last named code,
`FMOD_ERR_TOOMANYSAMPLES`. -/
theorem FMOD_ErrorString_covers_named_witness :
    FMOD_ERR_TOOMANYSAMPLES ∈ FMOD_RESULT_enumerators ∧
      FMOD_ERR_TOOMANYSAMPLES ≠ FMOD_RESULT_FORCEINT ∧
      FMOD_ErrorString FMOD_ERR_TOOMANYSAMPLES ≠ "Unknown error." :=
  ⟨by decide, by decide,
    FMOD_ErrorString_covers_named FMOD_ERR_TOOMANYSAMPLES (by decide) (by decide)⟩

/-- C4: for the success code, `FMOD_ErrorString(FMOD_OK)` returns exactly
`"No errors."`. -/
theorem FMOD_ErrorString_OK : FMOD_ErrorString FMOD_OK = "No errors." := by
  decide

/-- C5: the file-not-found code `FMOD_ERR_FILE_NOTFOUND` has ordinal 18 and
`FMOD_ErrorString` returns exactly `"File not found."` for it. -/
theorem FMOD_ErrorString_FILE_NOTFOUND :
    FMOD_ERR_FILE_NOTFOUND = 18 ∧
      FMOD_ErrorString FMOD_ERR_FILE_NOTFOUND = "File not found." ∧
      FMOD_ErrorString 18 = "File not found." := by
  decide

/-- C6: `FMOD_ErrorString` cannot fail: for every integer input, so for every
32-bit one (negative, in range, or above the range), it returns a non-empty
string, which is the message of a `case` label when the input is in `0..81`
and the one of the `default` label otherwise. -/
theorem FMOD_ErrorString_total (n : Int) :
    (∃ s : String, FMOD_ErrorString n = s ∧ s ≠ "") ∧
      ((0 ≤ n ∧ n ≤ 81) ∨ FMOD_ErrorString n = "Unknown error.") := by
  by_cases hr : 0 ≤ n ∧ n ≤ 81
  · exact ⟨⟨_, rfl, (FMOD_ErrorString_case n hr.1 hr.2).1⟩, Or.inl hr⟩
  · have hd : FMOD_ErrorString n = "Unknown error." :=
      FMOD_ErrorString_default n (by omega)
    refine ⟨⟨_, rfl, ?_⟩, Or.inr hd⟩
    rw [hd]
    decide

/-- C7: `FMOD_RESULT` is closed and totally ordered by ordinal: its
enumerators are exactly 82 named result codes with the consecutive, pairwise
distinct values 0, 1, ..., 81 in declaration order, from `FMOD_OK` = 0 to
`FMOD_ERR_TOOMANYSAMPLES` = 81, followed by the only other enumerator,
`FMOD_RESULT_FORCEINT` = 65536, which is strictly greater than all of them. -/
theorem FMOD_RESULT_closed_ordered :
    FMOD_RESULT_enumerators = (List.range 82).map Int.ofNat ++ [65536] ∧
      FMOD_RESULT_enumerators.length = 82 + 1 ∧
      FMOD_RESULT_enumerators.Nodup ∧
      List.Pairwise (fun a b => a < b) FMOD_RESULT_enumerators ∧
      FMOD_RESULT_enumerators.head? = some FMOD_OK ∧ FMOD_OK = 0 ∧
      FMOD_RESULT_enumerators[81]? = some FMOD_ERR_TOOMANYSAMPLES ∧
      FMOD_ERR_TOOMANYSAMPLES = 81 ∧
      FMOD_RESULT_enumerators.getLast? = some FMOD_RESULT_FORCEINT ∧
      FMOD_RESULT_FORCEINT = 65536 ∧
      (∀ e ∈ FMOD_RESULT_enumerators.take 82, e < FMOD_RESULT_FORCEINT) := by
  have hl : FMOD_RESULT_enumerators = (List.range 82).map Int.ofNat ++ [65536] := by
    decide
  refine ⟨hl, ?_, ?_, ?_, ?_, ?_, ?_, ?_, ?_, ?_, ?_⟩ <;> decide

/-- C10: `FMOD_ErrorString` returns the fallback `"Unknown error."` if and
only if its input lies outside `0..81`: no defined result code has a message
equal to the fallback text, and every other integer gets the fallback. -/
theorem FMOD_ErrorString_fallback_iff (n : Int) :
    FMOD_ErrorString n = "Unknown error." ↔ (n < 0 ∨ 81 < n) := by
  constructor
  · intro hs
    by_contra hr
    exact (FMOD_ErrorString_case n (by omega) (by omega)).2 hs
  · exact FMOD_ErrorString_default n

/-- The messages of the 82 `case` labels, in source order, are pairwise
different strings. -/
theorem FMOD_ErrorString_messages_nodup :
    ((List.range 82).map (fun i : Nat => FMOD_ErrorString (Int.ofNat i))).Nodup := by
  decide

/-- C11: `FMOD_ErrorString` is injective on the defined result codes: two
distinct codes in `0..81` have different messages. -/
theorem FMOD_ErrorString_injective (a b : Int)
    (ha0 : 0 ≤ a) (ha1 : a ≤ 81) (hb0 : 0 ≤ b) (hb1 : b ≤ 81) (hab : a ≠ b) :
    FMOD_ErrorString a ≠ FMOD_ErrorString b := by
  obtain ⟨i, rfl⟩ := Int.eq_ofNat_of_zero_le ha0
  obtain ⟨j, rfl⟩ := Int.eq_ofNat_of_zero_le hb0
  intro hs
  have hi : i ∈ List.range 82 := List.mem_range.2 (by omega)
  have hj : j ∈ List.range 82 := List.mem_range.2 (by omega)
  have hij : i = j :=
    List.inj_on_of_nodup_map FMOD_ErrorString_messages_nodup hi hj hs
  exact hab (by rw [hij])

/-- The instance of C11 at `FMOD_ERR_DSP_DONTPROCESS` (6) and
`FMOD_ERR_DSP_SILENCE` (11), whose messages share their first sentence. -/
theorem FMOD_ErrorString_injective_witness :
    (0 : Int) ≤ 6 ∧ (6 : Int) ≤ 81 ∧ (0 : Int) ≤ 11 ∧ (11 : Int) ≤ 81 ∧ (6 : Int) ≠ 11 ∧
      FMOD_ErrorString 6 ≠ FMOD_ErrorString 11 :=
  ⟨by decide, by decide, by decide, by decide, by decide,
    FMOD_ErrorString_injective 6 11 (by decide) (by decide) (by decide) (by decide)
      (by decide)⟩

/-- C12: the success message is returned only for success: for every integer
other than `FMOD_OK` (0), a defined error code or an out-of-range value, the
returned string is not `"No errors."`. -/
theorem FMOD_ErrorString_OK_only (n : Int) (h : n ≠ FMOD_OK) :
    FMOD_ErrorString n ≠ "No errors." := by
  have e0 : FMOD_OK = 0 := by decide
  rw [e0] at h
  by_cases hr : 0 ≤ n ∧ n ≤ 81
  · obtain ⟨h0, h1⟩ := hr
    interval_cases n
    · exact absurd rfl h
    all_goals decide
  · rw [FMOD_ErrorString_default n (by omega)]
    decide

/-- The instance of C12 at the sentinel `FMOD_RESULT_FORCEINT`. -/
theorem FMOD_ErrorString_OK_only_witness :
    FMOD_RESULT_FORCEINT ≠ FMOD_OK ∧
      FMOD_ErrorString FMOD_RESULT_FORCEINT ≠ "No errors." :=
  ⟨by decide, FMOD_ErrorString_OK_only FMOD_RESULT_FORCEINT (by decide)⟩

/-- C13: for every integer input, the string returned by `FMOD_ErrorString`
consists only of printable ASCII characters (codes 0x20 to 0x7E). -/
theorem FMOD_ErrorString_printable (n : Int) :
    ∀ c ∈ (FMOD_ErrorString n).data, 0x20 ≤ c.toNat ∧ c.toNat ≤ 0x7E := by
  by_cases hr : 0 ≤ n ∧ n ≤ 81
  · obtain ⟨h0, h1⟩ := hr
    interval_cases n <;> decide
  · rw [FMOD_ErrorString_default n (by omega)]
    decide

/-- The instance of C13 at the first character of the message of
`FMOD_ERR_FILE_NOTFOUND`. -/
theorem FMOD_ErrorString_printable_witness :
    'F' ∈ (FMOD_ErrorString FMOD_ERR_FILE_NOTFOUND).data ∧
      (0x20 ≤ 'F'.toNat ∧ 'F'.toNat ≤ 0x7E) :=
  ⟨by decide, FMOD_ErrorString_printable FMOD_ERR_FILE_NOTFOUND 'F' (by decide)⟩

/-! ## Thread affinity, thread priority, channel masks and mode flags -/

/-- The sixteen single-core macros of the header are the values of the
expression `(1 << k)` at `k = 0, ..., 15`. -/
theorem FMOD_THREAD_AFFINITY_cores_eq :
    FMOD_THREAD_AFFINITY_cores.map some = (List.range 16).map int_one_shl := by
  decide

/-- Every core mask over cores `0..30` has a value. -/
theorem coreMask_isSome (ks : List Nat) (h : ∀ k ∈ ks, k ≤ 30) :
    (coreMask ks).isSome = true := by
  induction ks with
  | nil => rfl
  | cons k ks ih =>
    have hk : k < 31 := by
      have := h k (List.mem_cons_self k ks)
      omega
    have hr := ih (fun j hj => h j (List.mem_cons_of_mem k hj))
    obtain ⟨r, hr2⟩ := Option.isSome_iff_exists.1 hr
    simp [coreMask, int_one_shl, hk, hr2]

/-- C15: the platform-agnostic thread priorities `DEFAULT`, `LOW`, `MEDIUM`,
`HIGH`, `VERY_HIGH`, `EXTREME` and `CRITICAL` are the seven pairwise distinct
values -32769 down to -32775, each strictly below
`FMOD_THREAD_PRIORITY_PLATFORM_MIN` = -32768 and hence outside the range
`[PLATFORM_MIN, PLATFORM_MAX]` = `[-32768, 32768]`. -/
theorem FMOD_THREAD_PRIORITY_agnostic_outside_platform :
    FMOD_THREAD_PRIORITY_agnostic =
        [-32769, -32770, -32771, -32772, -32773, -32774, -32775] ∧
      FMOD_THREAD_PRIORITY_agnostic.Nodup ∧
      FMOD_THREAD_PRIORITY_PLATFORM_MIN = -32768 ∧
      FMOD_THREAD_PRIORITY_PLATFORM_MAX = 32768 ∧
      (∀ p ∈ FMOD_THREAD_PRIORITY_agnostic,
        p < FMOD_THREAD_PRIORITY_PLATFORM_MIN ∧
          ¬ (FMOD_THREAD_PRIORITY_PLATFORM_MIN ≤ p ∧
              p ≤ FMOD_THREAD_PRIORITY_PLATFORM_MAX)) := by
  decide

/-- C16: each composite channel mask has as many bits set as the channel
count in its name (MONO 1, STEREO 2, LRC 3, QUAD 4, SURROUND 5, 5POINT1 6,
5POINT1_REARS 6, 7POINT0 7, 7POINT1 8, with `FMOD_CHANNELMASK_7POINT1` =
0xFF), uses only the nine single-speaker bits, and the masks are nested
MONO ⊆ STEREO ⊆ LRC ⊆ SURROUND ⊆ 5POINT1 ⊆ 7POINT1 as bit sets. -/
theorem FMOD_CHANNELMASK_composites :
    (popcount32 FMOD_CHANNELMASK_MONO = 1 ∧
      popcount32 FMOD_CHANNELMASK_STEREO = 2 ∧
      popcount32 FMOD_CHANNELMASK_LRC = 3 ∧
      popcount32 FMOD_CHANNELMASK_QUAD = 4 ∧
      popcount32 FMOD_CHANNELMASK_SURROUND = 5 ∧
      popcount32 FMOD_CHANNELMASK_5POINT1 = 6 ∧
      popcount32 FMOD_CHANNELMASK_5POINT1_REARS = 6 ∧
      popcount32 FMOD_CHANNELMASK_7POINT0 = 7 ∧
      popcount32 FMOD_CHANNELMASK_7POINT1 = 8) ∧
    FMOD_CHANNELMASK_7POINT1 = 0xFF ∧
    (bitsSubset FMOD_CHANNELMASK_MONO FMOD_CHANNELMASK_speakers ∧
      bitsSubset FMOD_CHANNELMASK_STEREO FMOD_CHANNELMASK_speakers ∧
      bitsSubset FMOD_CHANNELMASK_LRC FMOD_CHANNELMASK_speakers ∧
      bitsSubset FMOD_CHANNELMASK_QUAD FMOD_CHANNELMASK_speakers ∧
      bitsSubset FMOD_CHANNELMASK_SURROUND FMOD_CHANNELMASK_speakers ∧
      bitsSubset FMOD_CHANNELMASK_5POINT1 FMOD_CHANNELMASK_speakers ∧
      bitsSubset FMOD_CHANNELMASK_5POINT1_REARS FMOD_CHANNELMASK_speakers ∧
      bitsSubset FMOD_CHANNELMASK_7POINT0 FMOD_CHANNELMASK_speakers ∧
      bitsSubset FMOD_CHANNELMASK_7POINT1 FMOD_CHANNELMASK_speakers) ∧
    (bitsSubset FMOD_CHANNELMASK_MONO FMOD_CHANNELMASK_STEREO ∧
      bitsSubset FMOD_CHANNELMASK_STEREO FMOD_CHANNELMASK_LRC ∧
      bitsSubset FMOD_CHANNELMASK_LRC FMOD_CHANNELMASK_SURROUND ∧
      bitsSubset FMOD_CHANNELMASK_SURROUND FMOD_CHANNELMASK_5POINT1 ∧
      bitsSubset FMOD_CHANNELMASK_5POINT1 FMOD_CHANNELMASK_7POINT1) := by
  decide

/-- C17: `FMOD_DEFAULT` is 0, and each of the 28 non-zero `FMOD_MODE`
constants, `FMOD_LOOP_OFF` through `FMOD_VIRTUAL_PLAYFROMSTART`, is a single
bit of a 32-bit word; any two different ones have bitwise AND equal to 0. -/
theorem FMOD_MODE_flags_independent :
    FMOD_DEFAULT = 0 ∧
      FMOD_MODE_flags.length = 28 ∧
      FMOD_MODE_flags.head? = some FMOD_LOOP_OFF ∧
      FMOD_MODE_flags.getLast? = some FMOD_VIRTUAL_PLAYFROMSTART ∧
      FMOD_MODE_flags.Nodup ∧
      (∀ f ∈ FMOD_MODE_flags, ∃ k, k < 32 ∧ f = 2 ^ k) ∧
      (∀ a ∈ FMOD_MODE_flags, ∀ b ∈ FMOD_MODE_flags, a ≠ b → a &&& b = 0) := by
  decide

/-! ## The `FMOD_DSP_INIT_PARAMDESC_*` macros -/

/-- After `strncpy` of at most `n` bytes into `m ≥ n` zero bytes, the bytes
are the first `min n length` characters of the source string followed by
zeros. -/
theorem strncpy_replicate_zero (n : Nat) :
    ∀ (m : Nat) (src : List Nat), n ≤ m →
      strncpy (List.replicate m 0) src n =
        (C_string src).take (min n (C_string src).length) ++
          List.replicate (m - min n (C_string src).length) 0 := by
  induction n with
  | zero =>
    intro m src _
    simp [strncpy]
  | succ n ih =>
    intro m src hm
    obtain ⟨m, rfl⟩ : ∃ k, m = k + 1 := ⟨m - 1, by omega⟩
    have hnm : n ≤ m := by omega
    have hnil := ih m [] hnm
    simp only [C_string, List.takeWhile_nil, List.length_nil, Nat.min_zero, Nat.zero_min,
      List.take_nil, List.nil_append, Nat.sub_zero] at hnil
    cases src with
    | nil =>
      simp only [List.replicate_succ, strncpy, hnil]
      simp [C_string, List.replicate_succ]
    | cons c src =>
      by_cases hc : c = 0
      · subst hc
        simp only [List.replicate_succ, strncpy, if_true, hnil]
        simp [C_string, List.replicate_succ]
      · have hcs : C_string (c :: src) = c :: C_string src := by
          simp [C_string, List.takeWhile_cons, hc]
        simp only [List.replicate_succ, strncpy, if_neg hc, ih m src hnm, hcs,
          List.length_cons, Nat.succ_min_succ, List.take_succ_cons, List.cons_append,
          Nat.succ_eq_add_one, Nat.add_sub_add_right]

/-- A descriptor whose `name` and `label` are the result of `strncpy` of at
most 15 bytes into 16 zero bytes is initialised as the claim says. -/
theorem nameLabelInitialised_of_strncpy (p : FMOD_DSP_PARAMETER_DESC)
    (_name _label : List Nat)
    (hn : p.name = strncpy (List.replicate 16 0) _name 15)
    (hl : p.label = strncpy (List.replicate 16 0) _label 15) :
    nameLabelInitialised p _name _label := by
  have key : ∀ f src : List Nat, f = strncpy (List.replicate 16 0) src 15 →
      holdsTruncated f src ∧ f.length = 16 ∧ f[15]? = some 0 ∧
        ∀ c ∈ f.take (min 15 (C_string src).length), c ≠ 0 := by
    intro f src hf
    have hf2 : f = (C_string src).take (min 15 (C_string src).length) ++
        List.replicate (16 - min 15 (C_string src).length) 0 := by
      rw [hf, strncpy_replicate_zero 15 16 src (by decide)]
    have hk : min 15 (C_string src).length ≤ 15 := Nat.min_le_left _ _
    have hk2 : min 15 (C_string src).length ≤ (C_string src).length := Nat.min_le_right _ _
    have hlen : ((C_string src).take (min 15 (C_string src).length)).length =
        min 15 (C_string src).length := by
      rw [List.length_take]
      omega
    refine ⟨hf2, ?_, ?_, ?_⟩
    · rw [hf2, List.length_append, hlen, List.length_replicate]
      omega
    · rw [hf2, List.getElem?_append_right (by omega), hlen, List.getElem?_replicate]
      rw [if_pos (by omega)]
    · intro c hcmem
      rw [hf2, List.take_append_of_le_length (by omega), List.take_take, Nat.min_self] at hcmem
      have hc2 : c ∈ C_string src := List.mem_of_mem_take hcmem
      have := List.mem_takeWhile_imp hc2
      simpa using this
  obtain ⟨a1, a2, a3, a4⟩ := key p.name _name hn
  obtain ⟨b1, b2, b3, b4⟩ := key p.label _label hl
  exact ⟨a1, b1, a2, b2, a3, b3, a4, b4⟩

/-- C18: for each of the six `FMOD_DSP_INIT_PARAMDESC_*` macros and for every
pair of input strings `_name` and `_label` of any length, after the macro the
16-byte fields `name` and `label` of the descriptor hold the first
`min 15 length` characters of the respective input followed only by zero
bytes; both fields are NUL-terminated within their 16 bytes and an input
longer than 15 characters is truncated to 15. -/
theorem FMOD_DSP_INIT_PARAMDESC_name_label
    (_paramstruct : FMOD_DSP_PARAMETER_DESC) (_name _label : List Nat)
    (_description : Option (List Nat)) :
    (∀ _min _max _defaultval : Nat,
      nameLabelInitialised
        (FMOD_DSP_INIT_PARAMDESC_FLOAT _paramstruct _name _label _description
          _min _max _defaultval) _name _label) ∧
    (∀ (_defaultval : Nat) (_values _positions : List Nat),
      nameLabelInitialised
        (FMOD_DSP_INIT_PARAMDESC_FLOAT_WITH_MAPPING _paramstruct _name _label _description
          _defaultval _values _positions) _name _label) ∧
    (∀ (_min _max _defaultval _goestoinf : Int) (_valuenames : Option (List (List Nat))),
      nameLabelInitialised
        (FMOD_DSP_INIT_PARAMDESC_INT _paramstruct _name _label _description
          _min _max _defaultval _goestoinf _valuenames) _name _label) ∧
    (∀ (_defaultval : Int) (_valuenames : List (List Nat)),
      nameLabelInitialised
        (FMOD_DSP_INIT_PARAMDESC_INT_ENUMERATED _paramstruct _name _label _description
          _defaultval _valuenames) _name _label) ∧
    (∀ (_defaultval : Int) (_valuenames : Option (List (List Nat))),
      nameLabelInitialised
        (FMOD_DSP_INIT_PARAMDESC_BOOL _paramstruct _name _label _description
          _defaultval _valuenames) _name _label) ∧
    (∀ _datatype : Int,
      nameLabelInitialised
        (FMOD_DSP_INIT_PARAMDESC_DATA _paramstruct _name _label _description
          _datatype) _name _label) := by
  refine ⟨?_, ?_, ?_, ?_, ?_, ?_⟩ <;> intros <;>
    exact nameLabelInitialised_of_strncpy _ _ _ rfl rfl
